import Mathlib

/-!
Shallow embedding of the SCEPTER / ORION TX strategy-engine simulation core:
agents, steering behaviors, the per-tick movement and damage passes in both
standard and multi-theater mode, mission metrics, and the COA leaderboard.
Numbers are modelled as real numbers; the random source is modelled as an
oracle parameter (a function supplying the values that Math.random would
return), so every run of the stochastic code corresponds to a choice of
oracle.
-/

namespace Scepter

/-- SIMULATION_CONFIG.GRID_SIZE. -/
def GRID_SIZE : ℝ := 400

/-- SIMULATION_CONFIG.ENGAGEMENT_DISTANCE. -/
def ENGAGEMENT_DISTANCE : ℝ := 35

/-- SIMULATION_CONFIG.HIT_DAMAGE. -/
def HIT_DAMAGE : ℝ := 2

/-- SIMULATION_CONFIG.BASE_SUCCESS_PROBABILITY. -/
def BASE_SUCCESS_PROBABILITY : ℝ := 50

/-- One simulation agent.  In the source blue agents carry `vx`, `vy`,
`active` (and never `health`), red agents carry `health` (and never `vx`,
`vy`, `active`); here one record carries all fields and the fields a team
does not have in the source are set to inert values at creation and are
never read for that team, mirroring the JS short-circuit checks. -/
structure Agent where
  aid : String
  team : String
  x : ℝ
  y : ℝ
  vx : ℝ
  vy : ℝ
  active : Bool
  health : ℝ

/-- One theater of the multi-theater mode. -/
structure Theater where
  tid : ℕ
  name : String
  agents : List Agent
  priority : ℝ

/-- The policy sliders consumed by the engine. -/
structure Policy where
  forceLevel : ℝ
  roe : String
  commanderIntent : String
  riskTolerance : ℝ

/-- The logistics sliders consumed by the engine. -/
structure Logistics where
  supplyRate : ℝ
  maintenanceLevel : ℝ
  commsReliability : ℝ
  transportCapacity : ℝ

/-- JavaScript Math.atan2, written piecewise over the reals. -/
noncomputable def atan2 (y x : ℝ) : ℝ :=
  if 0 < x then Real.arctan (y / x)
  else if x < 0 then
    (if 0 ≤ y then Real.arctan (y / x) + Real.pi else Real.arctan (y / x) - Real.pi)
  else if 0 < y then Real.pi / 2
  else if y < 0 then -(Real.pi / 2)
  else 0

/-- Euclidean distance between two agents, as computed by
Math.sqrt(Math.pow(bx-ax,2)+Math.pow(by-ay,2)) / Math.hypot in the source. -/
noncomputable def distAg (a b : Agent) : ℝ :=
  Real.sqrt ((b.x - a.x) * (b.x - a.x) + (b.y - a.y) * (b.y - a.y))

/-- findNearest: scans the target list keeping the target of strictly
smallest distance, starting from the head; returns none on an empty list. -/
noncomputable def findNearest (agent : Agent) (targets : List Agent) : Option Agent :=
  match targets with
  | [] => none
  | t :: ts =>
      some (ts.foldl (fun best tgt => if distAg agent tgt < distAg agent best then tgt else best) t)

/-- Value of the first maximal run of decimal digits in a list of characters,
or the empty list when there is none: the JS id.match(/\d+/) lookup. -/
def firstDigitRun : List Char → List Char
  | [] => []
  | c :: cs => if c.isDigit then c :: cs.takeWhile Char.isDigit else firstDigitRun cs

/-- Numeric value of a digit string, as parseInt reads it. -/
def digitsVal (cs : List Char) : ℕ :=
  cs.foldl (fun acc c => 10 * acc + (c.toNat - 48)) 0

/-- parseInt(agent.id.match(/\d+/)?.[0] || 0): the value of the FIRST digit
run of the id (0 when the id has no digit). -/
def agentNumOf (s : String) : ℕ :=
  digitsVal (firstDigitRun s.data)

/-- getStrategyBehavior from the source.  `nearest` is optional exactly as in
the JS null check; `timeElapsed` is the fourth argument (the tick engines
never pass it, so they call this with 0, its JS default); `rand` is the value
Math.random() would return inside the dispersed branch. -/
noncomputable def getStrategyBehavior (agent : Agent) (nearest : Option Agent)
    (strategyApproach : String) (timeElapsed : ℝ) (rand : ℝ) : ℝ × ℝ :=
  match nearest with
  | none => (0, 0)
  | some nt =>
      let dx := nt.x - agent.x
      let dy := nt.y - agent.y
      let baseAngle := atan2 dy dx
      let dist := Real.sqrt (dx * dx + dy * dy)
      let agentNum := agentNumOf agent.aid
      let tableSpeed : ℝ :=
        if strategyApproach = "direct" then 2.5
        else if strategyApproach = "flank" then 2
        else if strategyApproach = "pincer" then 2
        else if strategyApproach = "dispersed" then 1.8
        else if strategyApproach = "concentrated" then 3
        else if strategyApproach = "hitrun" then 3.5
        else 2.5
      let angle : ℝ :=
        if strategyApproach = "flank" then
          baseAngle + (if agentNum % 2 = 0 then Real.pi / 3 else -(Real.pi / 3))
        else if strategyApproach = "pincer" then
          baseAngle + (if agentNum % 2 = 0 then Real.pi / 2.5 else -(Real.pi / 2.5))
        else if strategyApproach = "dispersed" then
          baseAngle + (rand - 0.5) * Real.pi / 2
        else if strategyApproach = "concentrated" then
          baseAngle + Real.sin (timeElapsed + agentNum) * 0.3
        else if strategyApproach = "hitrun" then
          (if dist < 80 then baseAngle + Real.pi else baseAngle)
        else baseAngle
      let speedMod : ℝ :=
        if strategyApproach = "hitrun" ∧ dist < 80 then tableSpeed * 1.5 else tableSpeed
      (Real.cos angle * speedMod, Real.sin angle * speedMod)

/-- The red-target filter used by the movement passes:
the JS conjunction of team equal to "red" and health above 0. -/
noncomputable def redAlive (l : List Agent) : List Agent :=
  l.filter (fun a => decide (a.team = "red" ∧ a.health > 0))

/-- The blue filter used by the damage passes:
the JS conjunction of team equal to "blue" and the active flag. -/
def blueActive (l : List Agent) : List Agent :=
  l.filter (fun a => decide (a.team = "blue" ∧ a.active = true))

/-- Movement step of updateStandardMode for one agent: steering velocity is
applied to the position WITHOUT any ROE or transport modifier, then both axes
are clamped to [0, GRID_SIZE].  `prevAgents` is the pre-tick roster the
target search reads; `rand` the oracle value for a dispersed steering roll. -/
noncomputable def moveBlueStandard (currentStrategy : String) (rand : ℝ)
    (prevAgents : List Agent) (agent : Agent) : Agent :=
  if agent.team = "blue" ∧ agent.active = true then
    match findNearest agent (redAlive prevAgents) with
    | none => agent
    | some nearest =>
        let behavior := getStrategyBehavior agent (some nearest) currentStrategy 0 rand
        let newX := max 0 (min GRID_SIZE (agent.x + behavior.1))
        let newY := max 0 (min GRID_SIZE (agent.y + behavior.2))
        { agent with vx := behavior.1, vy := behavior.2, x := newX, y := newY }
  else agent

/-- Damage step of updateStandardMode for one red agent: DETERMINISTIC flat
damage, HIT_DAMAGE per active blue agent within ENGAGEMENT_DISTANCE, with no
hit-probability roll and no ROE scaling.  `movedAgents` is the post-movement
roster the engagement checks read. -/
noncomputable def damageRedStandard (movedAgents : List Agent) (agent : Agent) : Agent :=
  if agent.team = "red" ∧ agent.health > 0 then
    let totalDamage := (blueActive movedAgents).foldl
      (fun acc b => if distAg agent b < ENGAGEMENT_DISTANCE then acc + HIT_DAMAGE else acc) 0
    if totalDamage > 0 then { agent with health := max 0 (agent.health - totalDamage) }
    else agent
  else agent

/-- updateStandardMode: movement pass mapped over the pre-tick roster, then
damage pass mapped over the post-movement roster.  `rhoMove` is the oracle
of dispersed-steering rolls, keyed by the moving agent. -/
noncomputable def updateStandardMode (currentStrategy : String)
    (rhoMove : Agent → ℝ) (prevAgents : List Agent) : List Agent :=
  let updatedAgents := prevAgents.map (fun a =>
    moveBlueStandard currentStrategy (rhoMove a) prevAgents a)
  updatedAgents.map (fun a => damageRedStandard updatedAgents a)

/-- The ROE aggression modifier of the multi-theater movement pass. -/
def roeAggressionMod (roe : String) : ℝ :=
  if roe = "defensive" then 0.5 else if roe = "aggressive" then 1.5 else 1

/-- Movement step of updateMultiTheater for one agent: steering velocity is
scaled by the ROE aggression modifier, the displacement additionally by
transportCapacity/100, then both axes are clamped to [0, GRID_SIZE]. -/
noncomputable def moveBlueMulti (currentStrategy : String) (policy : Policy)
    (logistics : Logistics) (rand : ℝ) (theaterAgents : List Agent) (agent : Agent) : Agent :=
  if agent.team = "blue" ∧ agent.active = true then
    match findNearest agent (redAlive theaterAgents) with
    | none => agent
    | some nearest =>
        let behavior := getStrategyBehavior agent (some nearest) currentStrategy 0 rand
        let aggressionMod := roeAggressionMod policy.roe
        let newVx := behavior.1 * aggressionMod
        let newVy := behavior.2 * aggressionMod
        let transportMod := logistics.transportCapacity / 100
        let newX := max 0 (min GRID_SIZE (agent.x + newVx * transportMod))
        let newY := max 0 (min GRID_SIZE (agent.y + newVy * transportMod))
        { agent with vx := newVx, vy := newVy, x := newX, y := newY }
  else agent

/-- Per-hit damage of the multi-theater damage pass: HIT_DAMAGE scaled by the
same sequential ROE ifs as the source (defensive halves, aggressive adds
half). -/
def roeHitDamage (roe : String) : ℝ :=
  let d1 := if roe = "defensive" then HIT_DAMAGE * 0.5 else HIT_DAMAGE
  if roe = "aggressive" then d1 * 1.5 else d1

/-- Damage step of updateMultiTheater for one red agent: STOCHASTIC damage,
each active blue agent within ENGAGEMENT_DISTANCE contributes roeHitDamage
exactly when its oracle roll is below commsReliability/100.  `roll` is the
oracle of Math.random() values, keyed by the contributing blue agent. -/
noncomputable def damageRedMulti (policy : Policy) (logistics : Logistics)
    (roll : Agent → ℝ) (movedAgents : List Agent) (agent : Agent) : Agent :=
  if agent.team = "red" ∧ agent.health > 0 then
    let totalDamage := (blueActive movedAgents).foldl
      (fun acc b =>
        if distAg agent b < ENGAGEMENT_DISTANCE then
          (if roll b < logistics.commsReliability / 100 then acc + roeHitDamage policy.roe
           else acc)
        else acc) 0
    if totalDamage > 0 then { agent with health := max 0 (agent.health - totalDamage) }
    else agent
  else agent

/-- One theater of updateMultiTheater: movement pass over the theater roster,
then damage pass over the post-movement roster.  `rhoHit` is keyed by the
damaged red agent and the contributing blue agent. -/
noncomputable def updateTheater (currentStrategy : String) (policy : Policy)
    (logistics : Logistics) (rhoMove : Agent → ℝ) (rhoHit : Agent → Agent → ℝ)
    (theater : Theater) : Theater :=
  let updatedAgents := theater.agents.map (fun a =>
    moveBlueMulti currentStrategy policy logistics (rhoMove a) theater.agents a)
  let finalAgents := updatedAgents.map (fun a =>
    damageRedMulti policy logistics (rhoHit a) updatedAgents a)
  { theater with agents := finalAgents }

/-- updateMultiTheater: every theater is advanced independently. -/
noncomputable def updateMultiTheater (currentStrategy : String) (policy : Policy)
    (logistics : Logistics) (rhoMove : Agent → ℝ) (rhoHit : Agent → Agent → ℝ)
    (theaters : List Theater) : List Theater :=
  theaters.map (updateTheater currentStrategy policy logistics rhoMove rhoHit)

/-- A JavaScript numeric result that is either an ordinary (finite) number or
the IEEE positive infinity that a division of a positive numerator by zero
produces. -/
inductive JsVal where
  | num : ℝ → JsVal
  | inf : JsVal

/-- True exactly on finite numeric values. -/
def JsVal.isNum : JsVal → Bool
  | JsVal.num _ => true
  | JsVal.inf => false

/-- The mission-metrics snapshot.  timeToObjective keeps the JS value type
because Math.floor(100 / 0) evaluates to Infinity, not to a number. -/
structure MissionMetrics where
  successProbability : ℝ
  predictedCasualties : ℤ
  timeToObjective : JsVal
  resourceConsumption : ℤ
  coverageGaps : List String

/-- updateMissionMetrics: flattens the population (across theaters in
multi-theater mode), derives the force ratio and the policy and logistics
modifiers, and builds the snapshot.  The timeToObjective entry embeds the JS
semantics of Math.floor(100 / (logisticsMod * 2)): when the divisor is 0 the
division returns Infinity and Math.floor keeps it, otherwise the real
quotient is floored. -/
noncomputable def updateMissionMetrics (mode : String) (theaters : List Theater)
    (agents : List Agent) (policy : Policy) (logistics : Logistics) : MissionMetrics :=
  let allAgents := if mode = "multi-theater" then (theaters.map Theater.agents).flatten else agents
  let activeBlue : ℕ := (blueActive allAgents).length
  let activeRed : ℕ := (redAlive allAgents).length
  let forceRatio : ℝ := (activeBlue : ℝ) / max (activeRed : ℝ) 1
  let policyMod : ℝ := policy.forceLevel / 100
  let logisticsMod : ℝ := (logistics.supplyRate + logistics.commsReliability) / 200
  let baseProb0 := BASE_SUCCESS_PROBABILITY + (forceRatio - 1) * 30
  let baseProb1 := baseProb0 * (policyMod * logisticsMod)
  let baseProb2 := if policy.roe = "defensive" then baseProb1 * 0.8 else baseProb1
  let baseProb3 := if policy.roe = "aggressive" then baseProb2 * 1.2 else baseProb2
  { successProbability := min 100 (max 0 baseProb3)
    predictedCasualties := ⌊(activeBlue : ℝ) * (1 - policyMod) * 0.3⌋
    timeToObjective :=
      if logisticsMod * 2 = 0 then JsVal.inf else JsVal.num ⌊100 / (logisticsMod * 2)⌋
    resourceConsumption := ⌊(100 : ℝ) - logistics.supplyRate⌋
    coverageGaps := if policy.forceLevel < 80 then ["Sector B", "Eastern Flank"] else [] }

/-- A scored Course-of-Action record. -/
structure COA where
  cid : ℕ
  name : String
  score : ℝ
  time : ℝ

/-- Descending order by score: the sort produced by
`.sort((a, b) => b.score - a.score)`. -/
def coaGE (a b : COA) : Prop := b.score ≤ a.score

noncomputable instance : DecidableRel coaGE := fun a b => Real.decidableLE b.score a.score

instance : IsTotal COA coaGE := ⟨fun x y => le_total y.score x.score⟩

instance : IsTrans COA coaGE := ⟨fun _ _ _ hab hbc => le_trans hbc hab⟩

/-- One leaderboard step: append the new record, sort descending by score,
truncate to the configured capacity (10 in the periodic-switch source, 50 in
the continuous-exploration source; the capacity is a parameter here). -/
noncomputable def updateLeaderboard (cap : ℕ) (prev : List COA) (newCOA : COA) : List COA :=
  ((prev ++ [newCOA]).insertionSort coaGE).take cap

/-- Blue agent of initStandardMode: two Math.random() draws for x and y. -/
def mkBlueStandard (i : ℕ) (rx ry : ℝ) : Agent :=
  { aid := "b" ++ toString i, team := "blue", x := rx * (GRID_SIZE * 0.3),
    y := ry * GRID_SIZE, vx := 0, vy := 0, active := true, health := 0 }

/-- Red agent of initStandardMode. -/
def mkRedStandard (i : ℕ) (rx ry : ℝ) : Agent :=
  { aid := "r" ++ toString i, team := "red",
    x := GRID_SIZE * 0.7 + rx * (GRID_SIZE * 0.2), y := ry * GRID_SIZE,
    vx := 0, vy := 0, active := false, health := 100 }

/-- initStandardMode: 20 blue then 6 red agents; `rho` is the stream of
Math.random() values, consumed two per agent. -/
def initStandardMode (rho : ℕ → ℝ) : List Agent :=
  (List.range 20).map (fun i => mkBlueStandard i (rho (2 * i)) (rho (2 * i + 1)))
  ++ (List.range 6).map (fun i => mkRedStandard i (rho (40 + 2 * i)) (rho (40 + 2 * i + 1)))

/-- Blue agent of a multi-theater theater: x within the left quarter. -/
def mkBlueTheater (t i : ℕ) (rx ry : ℝ) : Agent :=
  { aid := "t" ++ toString t ++ "-b" ++ toString i, team := "blue",
    x := rx * GRID_SIZE * 0.25, y := ry * GRID_SIZE,
    vx := 0, vy := 0, active := true, health := 0 }

/-- Red agent of a multi-theater theater: x within the right quarter. -/
def mkRedTheater (t i : ℕ) (rx ry : ℝ) : Agent :=
  { aid := "t" ++ toString t ++ "-r" ++ toString i, team := "red",
    x := GRID_SIZE * 0.7 + rx * GRID_SIZE * 0.25, y := ry * GRID_SIZE,
    vx := 0, vy := 0, active := false, health := 100 }

/-- Agent roster of one freshly initialized theater; the random agent counts
(8 plus floor of 5 draws, 2 plus floor of 3 draws) are parameters here and
`rho` is the stream of position draws. -/
def initTheaterAgents (t numAgents numTargets : ℕ) (rho : ℕ → ℝ) : List Agent :=
  (List.range numAgents).map (fun i => mkBlueTheater t i (rho (2 * i)) (rho (2 * i + 1)))
  ++ (List.range numTargets).map (fun i =>
      mkRedTheater t i (rho (2 * numAgents + 2 * i)) (rho (2 * numAgents + 2 * i + 1)))

/-- An agent position lies inside the square arena. -/
def inBounds (a : Agent) : Prop :=
  0 ≤ a.x ∧ a.x ≤ GRID_SIZE ∧ 0 ≤ a.y ∧ a.y ≤ GRID_SIZE

/-- Processing model for the snapshot/batched-write discipline: `writeAt`
performs one in-place update of slot `i` of the working array `acc`, reading
the argument of `f` from the fixed snapshot `snap`. -/
def writeAt (f : Agent → Agent) (snap : List Agent) (acc : List Agent) (i : ℕ) : List Agent :=
  match snap[i]? with
  | some a => acc.set i (f a)
  | none => acc

/-- Processing a whole pass in an arbitrary order of agent indices, starting
from the snapshot itself as the working array. -/
def passInOrder (f : Agent → Agent) (snap : List Agent) (order : List ℕ) : List Agent :=
  order.foldl (writeAt f snap) snap

/-! Helper lemmas. -/

/-- Unfolding of the steering model for the direct strategy. -/
lemma gsb_direct (a nt : Agent) (t r : ℝ) :
    getStrategyBehavior a (some nt) "direct" t r =
      (Real.cos (atan2 (nt.y - a.y) (nt.x - a.x)) * 2.5,
       Real.sin (atan2 (nt.y - a.y) (nt.x - a.x)) * 2.5) := by
  simp [getStrategyBehavior]

/-- Unfolding of the steering model for the flank strategy: the sign of the
60-degree offset is chosen by the parity of the first digit run of the id. -/
lemma gsb_flank (a nt : Agent) (t r : ℝ) :
    getStrategyBehavior a (some nt) "flank" t r =
      (Real.cos (atan2 (nt.y - a.y) (nt.x - a.x) +
          (if agentNumOf a.aid % 2 = 0 then Real.pi / 3 else -(Real.pi / 3))) * 2,
       Real.sin (atan2 (nt.y - a.y) (nt.x - a.x) +
          (if agentNumOf a.aid % 2 = 0 then Real.pi / 3 else -(Real.pi / 3))) * 2) := by
  simp [getStrategyBehavior]

/-- Unfolding of the steering model for the concentrated strategy. -/
lemma gsb_concentrated (a nt : Agent) (t r : ℝ) :
    getStrategyBehavior a (some nt) "concentrated" t r =
      (Real.cos (atan2 (nt.y - a.y) (nt.x - a.x) +
          Real.sin (t + (agentNumOf a.aid : ℝ)) * 0.3) * 3,
       Real.sin (atan2 (nt.y - a.y) (nt.x - a.x) +
          Real.sin (t + (agentNumOf a.aid : ℝ)) * 0.3) * 3) := by
  simp [getStrategyBehavior]

/-- The standard-mode damage step can only change the health field. -/
lemma damageRedStandard_fields (m : List Agent) (a : Agent) :
    (damageRedStandard m a).x = a.x ∧ (damageRedStandard m a).y = a.y ∧
    (damageRedStandard m a).team = a.team ∧ (damageRedStandard m a).active = a.active ∧
    (damageRedStandard m a).aid = a.aid := by
  unfold damageRedStandard
  split
  · dsimp only
    split <;> simp
  · simp

/-- The multi-theater damage step can only change the health field. -/
lemma damageRedMulti_fields (p : Policy) (l : Logistics) (roll : Agent → ℝ)
    (m : List Agent) (a : Agent) :
    (damageRedMulti p l roll m a).x = a.x ∧ (damageRedMulti p l roll m a).y = a.y ∧
    (damageRedMulti p l roll m a).team = a.team ∧
    (damageRedMulti p l roll m a).active = a.active ∧
    (damageRedMulti p l roll m a).aid = a.aid := by
  unfold damageRedMulti
  split
  · dsimp only
    split <;> simp
  · simp

/-- The standard-mode movement step can only change position and velocity. -/
lemma moveBlueStandard_fields (s : String) (r : ℝ) (prev : List Agent) (a : Agent) :
    (moveBlueStandard s r prev a).team = a.team ∧
    (moveBlueStandard s r prev a).active = a.active ∧
    (moveBlueStandard s r prev a).health = a.health ∧
    (moveBlueStandard s r prev a).aid = a.aid := by
  unfold moveBlueStandard
  split
  · split <;> simp
  · simp

/-- The multi-theater movement step can only change position and velocity. -/
lemma moveBlueMulti_fields (s : String) (p : Policy) (l : Logistics) (r : ℝ)
    (prev : List Agent) (a : Agent) :
    (moveBlueMulti s p l r prev a).team = a.team ∧
    (moveBlueMulti s p l r prev a).active = a.active ∧
    (moveBlueMulti s p l r prev a).health = a.health ∧
    (moveBlueMulti s p l r prev a).aid = a.aid := by
  unfold moveBlueMulti
  split
  · split <;> simp
  · simp

/-- The boundary clamp always lands inside the arena. -/
lemma clamp_bounds (v : ℝ) :
    0 ≤ max 0 (min GRID_SIZE v) ∧ max 0 (min GRID_SIZE v) ≤ GRID_SIZE := by
  constructor
  · exact le_max_left 0 _
  · refine max_le ?_ (min_le_left _ _)
    norm_num [GRID_SIZE]

/-- A moved agent of the standard tick stays inside the arena. -/
lemma moveBlueStandard_inBounds (s : String) (r : ℝ) (prev : List Agent) (a : Agent)
    (ha : inBounds a) : inBounds (moveBlueStandard s r prev a) := by
  unfold moveBlueStandard
  split
  · split
    · exact ha
    · refine ⟨(clamp_bounds _).1, (clamp_bounds _).2, (clamp_bounds _).1, (clamp_bounds _).2⟩
  · exact ha

/-- A fold whose step never decreases the accumulator is bounded below by the
initial accumulator. -/
lemma le_foldl_of_step_le (step : ℝ → Agent → ℝ) (h : ∀ acc b, acc ≤ step acc b) :
    ∀ (l : List Agent) (acc : ℝ), acc ≤ l.foldl step acc := by
  intro l
  induction l with
  | nil => intro acc; simp
  | cons b bs ih => intro acc; exact le_trans (h acc b) (ih (step acc b))

/-- The per-hit damage of the multi-theater pass is nonnegative for every
rules-of-engagement value. -/
lemma roeHitDamage_nonneg (roe : String) : 0 ≤ roeHitDamage roe := by
  unfold roeHitDamage
  dsimp only
  split_ifs <;> norm_num [HIT_DAMAGE]

/-- The flat damage accumulated by the standard-mode pass equals HIT_DAMAGE
times the number of qualifying (in-range) agents scanned. -/
lemma foldl_flat_damage (red : Agent) :
    ∀ (l : List Agent) (c : ℝ),
      l.foldl (fun acc b => if distAg red b < ENGAGEMENT_DISTANCE then acc + HIT_DAMAGE else acc) c
        = c + HIT_DAMAGE *
            ((l.filter (fun b => decide (distAg red b < ENGAGEMENT_DISTANCE))).length : ℝ) := by
  intro l
  induction l with
  | nil => intro c; simp
  | cons b bs ih =>
      intro c
      by_cases hb : distAg red b < ENGAGEMENT_DISTANCE
      · simp only [List.foldl_cons, if_pos hb, List.filter_cons, hb, decide_True, if_true,
          List.length_cons, ih]
        push_cast
        ring
      · simp only [List.foldl_cons, if_neg hb, List.filter_cons, hb, decide_False,
          Bool.false_eq_true, if_false, ih]

/-- The gated damage accumulated by the multi-theater pass equals the sum of
the per-agent contributions (the per-hit damage when the agent is in range
and its roll beats the hit chance, 0 otherwise). -/
lemma foldl_gated_damage (p : Policy) (lg : Logistics) (roll : Agent → ℝ) (red : Agent) :
    ∀ (l : List Agent) (c : ℝ),
      l.foldl (fun acc b =>
          if distAg red b < ENGAGEMENT_DISTANCE then
            (if roll b < lg.commsReliability / 100 then acc + roeHitDamage p.roe else acc)
          else acc) c
        = c + (l.map (fun b =>
            if distAg red b < ENGAGEMENT_DISTANCE ∧ roll b < lg.commsReliability / 100 then
              roeHitDamage p.roe else 0)).sum := by
  intro l
  induction l with
  | nil => intro c; simp
  | cons b bs ih =>
      intro c
      by_cases hb : distAg red b < ENGAGEMENT_DISTANCE
      · by_cases hr : roll b < lg.commsReliability / 100
        · simp only [List.foldl_cons, if_pos hb, if_pos hr, List.map_cons, List.sum_cons,
            if_pos (And.intro hb hr), ih]
          ring
        · have hnb : ¬ (distAg red b < ENGAGEMENT_DISTANCE ∧
              roll b < lg.commsReliability / 100) := fun hc => hr hc.2
          simp only [List.foldl_cons, if_pos hb, if_neg hr, List.map_cons, List.sum_cons,
            if_neg hnb, ih]
          ring
      · have hnb : ¬ (distAg red b < ENGAGEMENT_DISTANCE ∧
            roll b < lg.commsReliability / 100) := fun hc => hb hc.1
        simp only [List.foldl_cons, if_neg hb, List.map_cons, List.sum_cons, if_neg hnb, ih]
        ring

/-- Closed form of the standard-mode damage step on a living red agent:
health drops by HIT_DAMAGE per active blue agent within engagement range of
the scanned roster, floored at 0. -/
lemma damageRedStandard_health (m : List Agent) (a : Agent)
    (ht : a.team = "red") (hh : a.health > 0) :
    (damageRedStandard m a).health =
      max 0 (a.health - HIT_DAMAGE *
        (((blueActive m).filter (fun b => decide (distAg a b < ENGAGEMENT_DISTANCE))).length : ℝ)) := by
  unfold damageRedStandard
  rw [if_pos ⟨ht, hh⟩]
  dsimp only
  rw [foldl_flat_damage, zero_add]
  set n : ℝ := (((blueActive m).filter
      (fun b => decide (distAg a b < ENGAGEMENT_DISTANCE))).length : ℝ) with hn
  have hn0 : 0 ≤ n := by rw [hn]; positivity
  by_cases hd : HIT_DAMAGE * n > 0
  · rw [if_pos hd]
  · rw [if_neg hd]
    have hnn : (0:ℝ) ≤ HIT_DAMAGE * n := by
      have h2 : (0:ℝ) ≤ HIT_DAMAGE := by norm_num [HIT_DAMAGE]
      exact mul_nonneg h2 hn0
    have hz : HIT_DAMAGE * n = 0 := le_antisymm (not_lt.mp hd) hnn
    rw [hz, sub_zero]
    exact (max_eq_right hh.le).symm

/-- Closed form of the multi-theater damage step on a living red agent:
health drops by the sum of the roll-gated per-hit contributions, floored at
0. -/
lemma damageRedMulti_health (p : Policy) (lg : Logistics) (roll : Agent → ℝ)
    (m : List Agent) (a : Agent) (ht : a.team = "red") (hh : a.health > 0) :
    (damageRedMulti p lg roll m a).health =
      max 0 (a.health - ((blueActive m).map (fun b =>
        if distAg a b < ENGAGEMENT_DISTANCE ∧ roll b < lg.commsReliability / 100 then
          roeHitDamage p.roe else 0)).sum) := by
  unfold damageRedMulti
  rw [if_pos ⟨ht, hh⟩]
  dsimp only
  rw [foldl_gated_damage, zero_add]
  set s : ℝ := ((blueActive m).map (fun b =>
      if distAg a b < ENGAGEMENT_DISTANCE ∧ roll b < lg.commsReliability / 100 then
        roeHitDamage p.roe else 0)).sum with hs
  have hs0 : 0 ≤ s := by
    rw [hs]
    apply List.sum_nonneg
    intro x hx
    obtain ⟨b, _, hb⟩ := List.mem_map.mp hx
    rw [← hb]
    split
    · exact roeHitDamage_nonneg p.roe
    · exact le_refl 0
  by_cases hd : s > 0
  · rw [if_pos hd]
  · rw [if_neg hd]
    have hz : s = 0 := le_antisymm (not_lt.mp hd) hs0
    rw [hz, sub_zero]
    exact (max_eq_right hh.le).symm

/-- Across the standard-mode damage step the health of every agent is
non-increasing, and nonnegative health stays nonnegative. -/
lemma damageRedStandard_health_mono (m : List Agent) (a : Agent) :
    (damageRedStandard m a).health ≤ a.health ∧
    (0 ≤ a.health → 0 ≤ (damageRedStandard m a).health) := by
  unfold damageRedStandard
  split
  case isTrue h =>
    dsimp only
    split
    case isTrue htd =>
      refine ⟨max_le h.2.le (sub_le_self _ (le_of_lt htd)), fun _ => le_max_left 0 _⟩
    case isFalse htd => exact ⟨le_refl _, fun h0 => h0⟩
  case isFalse h => exact ⟨le_refl _, fun h0 => h0⟩

/-- Across the multi-theater damage step the health of every agent is
non-increasing, and nonnegative health stays nonnegative. -/
lemma damageRedMulti_health_mono (p : Policy) (lg : Logistics) (roll : Agent → ℝ)
    (m : List Agent) (a : Agent) :
    (damageRedMulti p lg roll m a).health ≤ a.health ∧
    (0 ≤ a.health → 0 ≤ (damageRedMulti p lg roll m a).health) := by
  unfold damageRedMulti
  split
  case isTrue h =>
    dsimp only
    split
    case isTrue htd =>
      refine ⟨max_le h.2.le (sub_le_self _ (le_of_lt htd)), fun _ => le_max_left 0 _⟩
    case isFalse htd => exact ⟨le_refl _, fun h0 => h0⟩
  case isFalse h => exact ⟨le_refl _, fun h0 => h0⟩

/-- One in-place write never changes the length of the working array. -/
lemma length_writeAt (f : Agent → Agent) (snap acc : List Agent) (i : ℕ) :
    (writeAt f snap acc i).length = acc.length := by
  unfold writeAt
  split <;> simp

/-- Entry j of an in-place pass over a fixed snapshot: the mapped value when
j has been processed, the value of the working array otherwise. -/
lemma getElem?_foldl_writeAt (f : Agent → Agent) (snap : List Agent) :
    ∀ (order : List ℕ) (acc : List Agent), acc.length = snap.length →
      ∀ j : ℕ, (order.foldl (writeAt f snap) acc)[j]? =
        if j ∈ order ∧ j < snap.length then (snap.map f)[j]? else acc[j]? := by
  intro order
  induction order with
  | nil => intro acc _ j; simp
  | cons i rest ih =>
      intro acc hlen j
      rw [List.foldl_cons, ih (writeAt f snap acc i) (by rw [length_writeAt]; exact hlen) j]
      by_cases hjr : j ∈ rest ∧ j < snap.length
      · rw [if_pos hjr, if_pos ⟨List.mem_cons_of_mem i hjr.1, hjr.2⟩]
      · rw [if_neg hjr]
        by_cases hij : j = i
        · subst hij
          by_cases hjs : j < snap.length
          · have hsnap : snap[j]? = some snap[j] := List.getElem?_eq_getElem hjs
            unfold writeAt
            rw [hsnap]
            dsimp only
            rw [if_pos ⟨List.mem_cons_self j rest, hjs⟩]
            have hja : j < acc.length := by rw [hlen]; exact hjs
            rw [List.getElem?_set_self hja, List.getElem?_map, hsnap]
            rfl
          · have hsnap : snap[j]? = none := List.getElem?_eq_none (le_of_not_lt hjs)
            unfold writeAt
            rw [hsnap]
            dsimp only
            rw [if_neg (fun hc => hjs hc.2)]
        · unfold writeAt
          cases hsnap : snap[i]? with
          | none =>
              dsimp only
              rw [if_neg (fun hc =>
                hjr ⟨(List.mem_cons.mp hc.1).resolve_left hij, hc.2⟩)]
          | some av =>
              dsimp only
              rw [List.getElem?_set_ne (fun h => hij h.symm)]
              rw [if_neg (fun hc =>
                hjr ⟨(List.mem_cons.mp hc.1).resolve_left hij, hc.2⟩)]

/-- Snapshot-read, batched-write order independence: processing the agents
of a pass in ANY order that covers every index yields exactly the batched
map the engine computes. -/
lemma passInOrder_eq_map (f : Agent → Agent) (snap : List Agent) (order : List ℕ)
    (hcover : ∀ i, i < snap.length → i ∈ order) :
    passInOrder f snap order = snap.map f := by
  apply List.ext_getElem?
  intro j
  unfold passInOrder
  rw [getElem?_foldl_writeAt f snap order snap rfl j]
  by_cases hj : j < snap.length
  · rw [if_pos ⟨hcover j hj, hj⟩]
  · rw [if_neg (fun hc => hj hc.2), List.getElem?_eq_none (le_of_not_lt hj),
      List.getElem?_eq_none (by simpa using le_of_not_lt hj)]

/-- A moved agent of the multi-theater tick stays inside the arena. -/
lemma moveBlueMulti_inBounds (s : String) (p : Policy) (l : Logistics) (r : ℝ)
    (prev : List Agent) (a : Agent) (ha : inBounds a) :
    inBounds (moveBlueMulti s p l r prev a) := by
  unfold moveBlueMulti
  split
  · split
    · exact ha
    · refine ⟨(clamp_bounds _).1, (clamp_bounds _).2, (clamp_bounds _).1, (clamp_bounds _).2⟩
  · exact ha

/-- Math.atan2 of a zero ordinate and positive abscissa is zero. -/
lemma atan2_zero_of_pos (x : ℝ) (hx : 0 < x) : atan2 0 x = 0 := by
  unfold atan2
  rw [if_pos hx]
  norm_num [Real.arctan_zero]

/-- On a horizontal approach (target to the right), direct steering is the
pure rightward velocity of magnitude 2.5. -/
lemma gsb_direct_horizontal (a nt : Agent) (t r : ℝ) (hy : nt.y = a.y) (hx : a.x < nt.x) :
    getStrategyBehavior a (some nt) "direct" t r = (2.5, 0) := by
  rw [gsb_direct]
  have h0 : nt.y - a.y = 0 := by rw [hy, sub_self]
  rw [h0, atan2_zero_of_pos _ (by linarith)]
  norm_num

/-- Distance of two agents on the same horizontal line. -/
lemma distAg_sameY (a b : Agent) (hy : b.y = a.y) : distAg a b = |b.x - a.x| := by
  unfold distAg
  rw [hy, sub_self]
  rw [show (b.x - a.x) * (b.x - a.x) + 0 * 0 = (b.x - a.x) ^ 2 by ring]
  exact Real.sqrt_sq_eq_abs _

/-- findNearest of a single target returns it. -/
lemma findNearest_single (a t : Agent) : findNearest a [t] = some t := by
  simp [findNearest]

/-- The red-alive filter on a blue/red pair keeps exactly the living red. -/
lemma redAlive_pair (a b : Agent) (ha : a.team = "blue") (hb : b.team = "red")
    (hh : b.health > 0) : redAlive [a, b] = [b] := by
  simp [redAlive, List.filter, ha, hb, hh]

/-- The blue-active filter on a blue/red pair keeps exactly the active blue. -/
lemma blueActive_pair (a b : Agent) (ha1 : a.team = "blue") (ha2 : a.active = true)
    (hb : b.team = "red") : blueActive [a, b] = [a] := by
  simp [blueActive, List.filter, ha1, ha2, hb]

/-- Evaluation of the standard-mode movement step on an active blue agent
with a found target: the steering velocity is added to the position with no
further modifier, then clamped. -/
lemma moveBlueStandard_eval (s : String) (r : ℝ) (prev : List Agent) (a nt : Agent)
    (ha1 : a.team = "blue") (ha2 : a.active = true)
    (hfn : findNearest a (redAlive prev) = some nt) :
    moveBlueStandard s r prev a =
      { a with vx := (getStrategyBehavior a (some nt) s 0 r).1,
               vy := (getStrategyBehavior a (some nt) s 0 r).2,
               x := max 0 (min GRID_SIZE (a.x + (getStrategyBehavior a (some nt) s 0 r).1)),
               y := max 0 (min GRID_SIZE (a.y + (getStrategyBehavior a (some nt) s 0 r).2)) } := by
  unfold moveBlueStandard
  rw [if_pos ⟨ha1, ha2⟩, hfn]

/-- The standard-mode movement step skips everything but active blues. -/
lemma moveBlueStandard_skip (s : String) (r : ℝ) (prev : List Agent) (a : Agent)
    (hna : ¬(a.team = "blue" ∧ a.active = true)) :
    moveBlueStandard s r prev a = a := by
  unfold moveBlueStandard
  rw [if_neg hna]

/-- Evaluation of the multi-theater movement step on an active blue agent
with a found target: the steering velocity is scaled by the ROE aggression
modifier, the displacement additionally by transportCapacity/100, then
clamped. -/
lemma moveBlueMulti_eval (s : String) (p : Policy) (lg : Logistics) (r : ℝ)
    (prev : List Agent) (a nt : Agent)
    (ha1 : a.team = "blue") (ha2 : a.active = true)
    (hfn : findNearest a (redAlive prev) = some nt) :
    moveBlueMulti s p lg r prev a =
      { a with vx := (getStrategyBehavior a (some nt) s 0 r).1 * roeAggressionMod p.roe,
               vy := (getStrategyBehavior a (some nt) s 0 r).2 * roeAggressionMod p.roe,
               x := max 0 (min GRID_SIZE (a.x +
                 (getStrategyBehavior a (some nt) s 0 r).1 * roeAggressionMod p.roe *
                   (lg.transportCapacity / 100))),
               y := max 0 (min GRID_SIZE (a.y +
                 (getStrategyBehavior a (some nt) s 0 r).2 * roeAggressionMod p.roe *
                   (lg.transportCapacity / 100))) } := by
  unfold moveBlueMulti
  rw [if_pos ⟨ha1, ha2⟩, hfn]

/-- The multi-theater movement step skips everything but active blues. -/
lemma moveBlueMulti_skip (s : String) (p : Policy) (lg : Logistics) (r : ℝ)
    (prev : List Agent) (a : Agent) (hna : ¬(a.team = "blue" ∧ a.active = true)) :
    moveBlueMulti s p lg r prev a = a := by
  unfold moveBlueMulti
  rw [if_neg hna]

/-- The standard-mode damage step skips everything but living reds. -/
lemma damageRedStandard_notRed (m : List Agent) (a : Agent)
    (hna : ¬(a.team = "red" ∧ a.health > 0)) : damageRedStandard m a = a := by
  unfold damageRedStandard
  rw [if_neg hna]

/-- The standard-mode damage step leaves a red agent alone when no active
blue agent is within engagement range. -/
lemma damageRedStandard_nohit (m : List Agent) (a : Agent)
    (hmiss : ∀ b ∈ blueActive m, ¬ distAg a b < ENGAGEMENT_DISTANCE) :
    damageRedStandard m a = a := by
  unfold damageRedStandard
  split
  · dsimp only
    rw [foldl_flat_damage, zero_add]
    rw [List.filter_eq_nil_iff.mpr (fun b hb => by simpa using hmiss b hb)]
    norm_num
  · rfl

/-- The standard-mode damage step with exactly one qualifying blue agent in
range deals exactly HIT_DAMAGE. -/
lemma damageRedStandard_single (m : List Agent) (a b : Agent)
    (hba : blueActive m = [b]) (ht : a.team = "red") (hh : a.health > 0)
    (hd : distAg a b < ENGAGEMENT_DISTANCE) :
    damageRedStandard m a = { a with health := max 0 (a.health - HIT_DAMAGE) } := by
  unfold damageRedStandard
  rw [if_pos ⟨ht, hh⟩]
  dsimp only
  rw [hba]
  simp only [List.foldl_cons, List.foldl_nil, if_pos hd, zero_add]
  rw [if_pos (by norm_num [HIT_DAMAGE] : HIT_DAMAGE > (0:ℝ))]

/-- The multi-theater damage step skips everything but living reds. -/
lemma damageRedMulti_notRed (p : Policy) (lg : Logistics) (roll : Agent → ℝ)
    (m : List Agent) (a : Agent) (hna : ¬(a.team = "red" ∧ a.health > 0)) :
    damageRedMulti p lg roll m a = a := by
  unfold damageRedMulti
  rw [if_neg hna]

/-- The multi-theater damage step leaves a red agent alone when no scanned
roll of a scanned blue agent beats the hit chance (in particular always when the
chance is 0 and rolls are nonnegative). -/
lemma damageRedMulti_noroll (p : Policy) (lg : Logistics) (roll : Agent → ℝ)
    (m : List Agent) (a : Agent)
    (hr : ∀ b ∈ blueActive m, ¬ roll b < lg.commsReliability / 100) :
    damageRedMulti p lg roll m a = a := by
  unfold damageRedMulti
  split
  · dsimp only
    rw [foldl_gated_damage, zero_add]
    rw [List.sum_eq_zero (by
      intro x hx
      obtain ⟨b, hb, hbx⟩ := List.mem_map.mp hx
      rw [← hbx, if_neg (fun hc => hr b hb hc.2)])]
    rw [if_neg (by norm_num)]
  · rfl

/-- The multi-theater damage step leaves a red agent alone when no active
blue agent is within engagement range. -/
lemma damageRedMulti_nohit (p : Policy) (lg : Logistics) (roll : Agent → ℝ)
    (m : List Agent) (a : Agent)
    (hmiss : ∀ b ∈ blueActive m, ¬ distAg a b < ENGAGEMENT_DISTANCE) :
    damageRedMulti p lg roll m a = a := by
  unfold damageRedMulti
  split
  · dsimp only
    rw [foldl_gated_damage, zero_add]
    rw [List.sum_eq_zero (by
      intro x hx
      obtain ⟨b, hb, hbx⟩ := List.mem_map.mp hx
      rw [← hbx, if_neg (fun hc => hmiss b hb hc.1)])]
    rw [if_neg (by norm_num)]
  · rfl

/-! Concrete scenario states used by the worked examples and the
counterexamples: one blue and one red agent on the x axis. -/

/-- Blue agent at (bx, 0). -/
def hBlue (bx : ℝ) : Agent :=
  { aid := "b0", team := "blue", x := bx, y := 0, vx := 0, vy := 0, active := true, health := 0 }

/-- Red agent at (rx, 0) at full health. -/
def hRed (rx : ℝ) : Agent :=
  { aid := "r0", team := "red", x := rx, y := 0, vx := 0, vy := 0, active := false, health := 100 }

/-- The blue agent of the pair after one direct-strategy move of +2.5 in x. -/
def mbAgent (bx : ℝ) : Agent :=
  { aid := "b0", team := "blue", x := bx + 2.5, y := 0, vx := 2.5, vy := 0, active := true,
    health := 0 }

/-- The default policy of the source component state. -/
def polStandard : Policy :=
  { forceLevel := 100, roe := "standard", commanderIntent := "balanced", riskTolerance := 50 }

/-- The aggressive-ROE policy. -/
def polAggressive : Policy :=
  { forceLevel := 100, roe := "aggressive", commanderIntent := "balanced", riskTolerance := 50 }

/-- The default logistics of the source component state. -/
def lgFull : Logistics :=
  { supplyRate := 100, maintenanceLevel := 100, commsReliability := 100,
    transportCapacity := 100 }

/-- Logistics with communications reliability dialed to 0. -/
def lgComms0 : Logistics :=
  { supplyRate := 100, maintenanceLevel := 100, commsReliability := 0,
    transportCapacity := 100 }

/-- Logistics with supply and communications both 0 (zero logistics factor). -/
def lgLogZero : Logistics :=
  { supplyRate := 0, maintenanceLevel := 100, commsReliability := 0,
    transportCapacity := 100 }

/-- Movement pass of the standard tick on the horizontal pair under the
direct strategy: the blue agent advances exactly 2.5 in x. -/
lemma standardMoved_hpair (bx rx : ℝ) (rho : Agent → ℝ) (hlt : bx < rx)
    (h0 : 0 ≤ bx + 2.5) (h4 : bx + 2.5 ≤ GRID_SIZE) :
    [hBlue bx, hRed rx].map
        (fun a => moveBlueStandard "direct" (rho a) [hBlue bx, hRed rx] a) =
      [mbAgent bx, hRed rx] := by
  have hfn : findNearest (hBlue bx) (redAlive [hBlue bx, hRed rx]) = some (hRed rx) := by
    rw [redAlive_pair _ _ rfl rfl (by norm_num [hRed]), findNearest_single]
  simp only [List.map_cons, List.map_nil]
  rw [moveBlueStandard_eval "direct" _ _ _ (hRed rx) rfl rfl hfn,
    moveBlueStandard_skip _ _ _ _ (by simp [hRed]),
    gsb_direct_horizontal (hBlue bx) (hRed rx) 0 (rho (hBlue bx))
      (by norm_num [hBlue, hRed]) (by simpa [hBlue, hRed] using hlt)]
  simp only [hBlue, mbAgent, List.cons.injEq, and_true, Agent.mk.injEq]
  refine ⟨trivial, trivial, ?_, ?_⟩
  · rw [min_eq_right (by simpa [GRID_SIZE] using h4), max_eq_right h0]
  · norm_num [GRID_SIZE]

/-- Standard tick on the horizontal pair when the post-movement distance is
still at least the engagement distance: the red agent is untouched. -/
lemma updateStandardMode_hpair_miss (bx rx : ℝ) (rho : Agent → ℝ) (hlt : bx < rx)
    (h0 : 0 ≤ bx + 2.5) (h4 : bx + 2.5 ≤ GRID_SIZE)
    (hdist : ¬ |rx - (bx + 2.5)| < ENGAGEMENT_DISTANCE) :
    updateStandardMode "direct" rho [hBlue bx, hRed rx] = [mbAgent bx, hRed rx] := by
  unfold updateStandardMode
  dsimp only
  rw [standardMoved_hpair bx rx rho hlt h0 h4]
  have hba : blueActive [mbAgent bx, hRed rx] = [mbAgent bx] :=
    blueActive_pair _ _ rfl rfl rfl
  simp only [List.map_cons, List.map_nil]
  rw [damageRedStandard_notRed _ _ (by simp [mbAgent]),
    damageRedStandard_nohit _ _ (by
      intro b hb
      rw [hba, List.mem_singleton] at hb
      subst hb
      rw [distAg_sameY (hRed rx) (mbAgent bx) (by norm_num [hRed, mbAgent])]
      simpa [hRed, mbAgent, abs_sub_comm] using hdist)]

/-- Standard tick on the horizontal pair when the post-movement distance is
below the engagement distance: the red agent takes the flat HIT_DAMAGE. -/
lemma updateStandardMode_hpair_hit (bx rx : ℝ) (rho : Agent → ℝ) (hlt : bx < rx)
    (h0 : 0 ≤ bx + 2.5) (h4 : bx + 2.5 ≤ GRID_SIZE)
    (hdist : |rx - (bx + 2.5)| < ENGAGEMENT_DISTANCE) :
    updateStandardMode "direct" rho [hBlue bx, hRed rx] =
      [mbAgent bx,
       { aid := "r0", team := "red", x := rx, y := 0, vx := 0, vy := 0, active := false,
         health := 98 }] := by
  unfold updateStandardMode
  dsimp only
  rw [standardMoved_hpair bx rx rho hlt h0 h4]
  have hba : blueActive [mbAgent bx, hRed rx] = [mbAgent bx] :=
    blueActive_pair _ _ rfl rfl rfl
  simp only [List.map_cons, List.map_nil]
  rw [damageRedStandard_notRed _ _ (by simp [mbAgent]),
    damageRedStandard_single _ _ _ hba rfl (by norm_num [hRed]) (by
      rw [distAg_sameY (hRed rx) (mbAgent bx) (by norm_num [hRed, mbAgent])]
      simpa [hRed, mbAgent, abs_sub_comm] using hdist)]
  simp only [hRed, List.cons.injEq, Agent.mk.injEq, and_true, true_and]
  norm_num [HIT_DAMAGE]

/-- Movement pass of a multi-theater tick on the horizontal pair under the
direct strategy, standard ROE and full transport capacity: the blue agent
advances exactly 2.5 in x, as in standard mode. -/
lemma multiMoved_hpair (bx rx : ℝ) (lg : Logistics) (hcap : lg.transportCapacity = 100)
    (rho : Agent → ℝ) (hlt : bx < rx) (h0 : 0 ≤ bx + 2.5) (h4 : bx + 2.5 ≤ GRID_SIZE) :
    [hBlue bx, hRed rx].map
        (fun a => moveBlueMulti "direct" polStandard lg (rho a) [hBlue bx, hRed rx] a) =
      [mbAgent bx, hRed rx] := by
  have hfn : findNearest (hBlue bx) (redAlive [hBlue bx, hRed rx]) = some (hRed rx) := by
    rw [redAlive_pair _ _ rfl rfl (by norm_num [hRed]), findNearest_single]
  simp only [List.map_cons, List.map_nil]
  rw [moveBlueMulti_eval "direct" polStandard lg _ _ _ (hRed rx) rfl rfl hfn,
    moveBlueMulti_skip _ _ _ _ _ _ (by simp [hRed]),
    gsb_direct_horizontal (hBlue bx) (hRed rx) 0 (rho (hBlue bx))
      (by norm_num [hBlue, hRed]) (by simpa [hBlue, hRed] using hlt)]
  have hagg : roeAggressionMod polStandard.roe = 1 := by simp [roeAggressionMod, polStandard]
  rw [hagg, hcap]
  simp only [hBlue, mbAgent, List.cons.injEq, and_true, Agent.mk.injEq, mul_one, zero_mul]
  norm_num [GRID_SIZE]
  rw [min_eq_right (by rw [show (5:ℝ)/2 = 2.5 by norm_num]; simpa [GRID_SIZE] using h4),
    max_eq_right (by rw [show (5:ℝ)/2 = 2.5 by norm_num]; exact h0)]

/-- Multi-theater tick on the horizontal pair when the post-movement
distance is still at least the engagement distance: the red agent is
untouched. -/
lemma updateTheater_hpair_miss (bx rx pr : ℝ) (nm : String) (rho : Agent → ℝ)
    (rollO : Agent → Agent → ℝ) (hlt : bx < rx) (h0 : 0 ≤ bx + 2.5)
    (h4 : bx + 2.5 ≤ GRID_SIZE)
    (hdist : ¬ |rx - (bx + 2.5)| < ENGAGEMENT_DISTANCE) :
    updateTheater "direct" polStandard lgFull rho rollO
        { tid := 0, name := nm, agents := [hBlue bx, hRed rx], priority := pr } =
      { tid := 0, name := nm, agents := [mbAgent bx, hRed rx], priority := pr } := by
  unfold updateTheater
  dsimp only
  rw [multiMoved_hpair bx rx lgFull rfl rho hlt h0 h4]
  have hba : blueActive [mbAgent bx, hRed rx] = [mbAgent bx] :=
    blueActive_pair _ _ rfl rfl rfl
  simp only [List.map_cons, List.map_nil]
  rw [damageRedMulti_notRed _ _ _ _ _ (by simp [mbAgent]),
    damageRedMulti_nohit _ _ _ _ _ (by
      intro b hb
      rw [hba, List.mem_singleton] at hb
      subst hb
      rw [distAg_sameY (hRed rx) (mbAgent bx) (by norm_num [hRed, mbAgent])]
      simpa [hRed, mbAgent, abs_sub_comm] using hdist)]

/-- Multi-theater tick on the horizontal pair with communications
reliability 0 and all-zero rolls: the stochastic damage variant deals no
damage even with the blue agent in engagement range. -/
lemma updateTheater_hpair_comms0 (bx rx pr : ℝ) (nm : String) (rho : Agent → ℝ)
    (hlt : bx < rx) (h0 : 0 ≤ bx + 2.5) (h4 : bx + 2.5 ≤ GRID_SIZE) :
    updateTheater "direct" polStandard lgComms0 rho (fun _ _ => 0)
        { tid := 0, name := nm, agents := [hBlue bx, hRed rx], priority := pr } =
      { tid := 0, name := nm, agents := [mbAgent bx, hRed rx], priority := pr } := by
  unfold updateTheater
  dsimp only
  rw [multiMoved_hpair bx rx lgComms0 rfl rho hlt h0 h4]
  simp only [List.map_cons, List.map_nil]
  rw [damageRedMulti_notRed _ _ _ _ _ (by simp [mbAgent]),
    damageRedMulti_noroll _ _ _ _ _ (by
      intro b _
      norm_num [lgComms0])]

/-- Worked-example population of the metrics engine: 10 active blue and 5
living red agents. -/
def exMetricsAgents : List Agent :=
  List.replicate 10 (hBlue 0) ++ List.replicate 5 (hRed 300)

/-- The active blues of the worked-example population. -/
lemma blueActive_exMetrics : blueActive exMetricsAgents = List.replicate 10 (hBlue 0) := by
  unfold exMetricsAgents blueActive
  rw [List.filter_append, List.filter_replicate_of_pos (by simp [hBlue]),
    List.filter_replicate_of_neg (by simp [hRed])]
  simp

/-- The living reds of the worked-example population. -/
lemma redAlive_exMetrics : redAlive exMetricsAgents = List.replicate 5 (hRed 300) := by
  unfold exMetricsAgents redAlive
  rw [List.filter_append, List.filter_replicate_of_neg (by simp [hBlue]),
    List.filter_replicate_of_pos (by simp [hRed])]
  simp

/-- Worked example of the metrics engine: full policy and logistics, 10
active blue versus 5 living red gives success probability 80. -/
lemma metrics_example :
    (updateMissionMetrics "standard" [] exMetricsAgents polStandard lgFull).successProbability
      = 80 := by
  simp only [updateMissionMetrics, polStandard, lgFull, BASE_SUCCESS_PROBABILITY,
    if_neg (show ¬("standard" = "multi-theater") by decide),
    if_neg (show ¬("standard" = "defensive") by decide),
    if_neg (show ¬("standard" = "aggressive") by decide),
    blueActive_exMetrics, redAlive_exMetrics, List.length_replicate]
  norm_num [max_def, min_def]

/-- With both supply and communications at 0 the logistics factor is 0 and
timeToObjective becomes the JS Infinity value. -/
lemma metrics_logzero :
    (updateMissionMetrics "standard" [] [] polStandard lgLogZero).timeToObjective
      = JsVal.inf := by
  simp only [updateMissionMetrics, lgLogZero]
  norm_num

/-- For a nonzero logistics factor, timeToObjective is the floored quotient,
a finite number. -/
lemma metrics_time_num (mode : String) (ths : List Theater) (ags : List Agent)
    (p : Policy) (lg : Logistics)
    (h : (lg.supplyRate + lg.commsReliability) / 200 ≠ 0) :
    (updateMissionMetrics mode ths ags p lg).timeToObjective
      = JsVal.num (⌊100 / ((lg.supplyRate + lg.commsReliability) / 200 * 2)⌋ : ℤ) := by
  simp only [updateMissionMetrics]
  rw [if_neg (by intro hc; exact h (by linarith))]

/-- For a zero logistics factor, timeToObjective is the JS Infinity value. -/
lemma metrics_time_inf (mode : String) (ths : List Theater) (ags : List Agent)
    (p : Policy) (lg : Logistics)
    (h : (lg.supplyRate + lg.commsReliability) / 200 = 0) :
    (updateMissionMetrics mode ths ags p lg).timeToObjective = JsVal.inf := by
  simp only [updateMissionMetrics]
  rw [if_pos (by rw [h, zero_mul])]

/-- One leaderboard step always produces a list sorted descending by score
and no longer than the capacity. -/
lemma updateLeaderboard_sorted_le (cap : ℕ) (prev : List COA) (c : COA) :
    List.Sorted coaGE (updateLeaderboard cap prev c) ∧
    (updateLeaderboard cap prev c).length ≤ cap := by
  constructor
  · exact List.Pairwise.sublist (List.take_sublist _ _)
      (List.sorted_insertionSort coaGE (prev ++ [c]))
  · simp only [updateLeaderboard, List.length_take]
    exact min_le_left _ _

/-- Folding any number of leaderboard steps from a sorted, within-capacity
board keeps it sorted and within capacity. -/
lemma foldl_updateLeaderboard (cap : ℕ) (evals : List COA) :
    ∀ init : List COA, List.Sorted coaGE init → init.length ≤ cap →
      List.Sorted coaGE (evals.foldl (updateLeaderboard cap) init) ∧
      (evals.foldl (updateLeaderboard cap) init).length ≤ cap := by
  induction evals with
  | nil => intro init h1 h2; exact ⟨h1, h2⟩
  | cons c cs ih =>
      intro init _ _
      rw [List.foldl_cons]
      exact ih _ (updateLeaderboard_sorted_le cap init c).1
        (updateLeaderboard_sorted_le cap init c).2

/-- The standard tick preserves the roster length. -/
lemma length_updateStandardMode (s : String) (rho : Agent → ℝ) (prev : List Agent) :
    (updateStandardMode s rho prev).length = prev.length := by
  simp [updateStandardMode]

/-- The theater tick preserves the roster length. -/
lemma length_updateTheater (s : String) (p : Policy) (lg : Logistics)
    (rhoM : Agent → ℝ) (rhoH : Agent → Agent → ℝ) (th : Theater) :
    (updateTheater s p lg rhoM rhoH th).agents.length = th.agents.length := by
  simp [updateTheater]

/-- Fresh standard-mode agents lie inside the arena for any random stream
with values in [0, 1). -/
lemma initStandardMode_inBounds (rho : ℕ → ℝ) (hrho : ∀ n, 0 ≤ rho n ∧ rho n < 1) :
    ∀ a ∈ initStandardMode rho, inBounds a := by
  intro a ha
  unfold initStandardMode at ha
  rcases List.mem_append.mp ha with hb | hr
  · obtain ⟨i, _, rfl⟩ := List.mem_map.mp hb
    obtain ⟨h1, h2⟩ := hrho (2 * i)
    obtain ⟨h3, h4⟩ := hrho (2 * i + 1)
    simp only [inBounds, mkBlueStandard, GRID_SIZE]
    refine ⟨by nlinarith, by nlinarith, by nlinarith, by nlinarith⟩
  · obtain ⟨i, _, rfl⟩ := List.mem_map.mp hr
    obtain ⟨h1, h2⟩ := hrho (40 + 2 * i)
    obtain ⟨h3, h4⟩ := hrho (40 + 2 * i + 1)
    simp only [inBounds, mkRedStandard, GRID_SIZE]
    refine ⟨by nlinarith, by nlinarith, by nlinarith, by nlinarith⟩

/-- Fresh theater agents lie inside the arena for any random stream with
values in [0, 1) and any agent counts. -/
lemma initTheaterAgents_inBounds (t numAgents numTargets : ℕ) (rho : ℕ → ℝ)
    (hrho : ∀ n, 0 ≤ rho n ∧ rho n < 1) :
    ∀ a ∈ initTheaterAgents t numAgents numTargets rho, inBounds a := by
  intro a ha
  unfold initTheaterAgents at ha
  rcases List.mem_append.mp ha with hb | hr
  · obtain ⟨i, _, rfl⟩ := List.mem_map.mp hb
    obtain ⟨h1, h2⟩ := hrho (2 * i)
    obtain ⟨h3, h4⟩ := hrho (2 * i + 1)
    simp only [inBounds, mkBlueTheater, GRID_SIZE]
    refine ⟨by nlinarith, by nlinarith, by nlinarith, by nlinarith⟩
  · obtain ⟨i, _, rfl⟩ := List.mem_map.mp hr
    obtain ⟨h1, h2⟩ := hrho (2 * numAgents + 2 * i)
    obtain ⟨h3, h4⟩ := hrho (2 * numAgents + 2 * i + 1)
    simp only [inBounds, mkRedTheater, GRID_SIZE]
    refine ⟨by nlinarith, by nlinarith, by nlinarith, by nlinarith⟩

/-- The standard tick keeps every agent inside the arena. -/
lemma updateStandardMode_inBounds (s : String) (rho : Agent → ℝ) (prev : List Agent)
    (hb : ∀ a ∈ prev, inBounds a) :
    ∀ a ∈ updateStandardMode s rho prev, inBounds a := by
  intro a ha
  simp only [updateStandardMode] at ha
  obtain ⟨b, hbmem, rfl⟩ := List.mem_map.mp ha
  obtain ⟨c, hcmem, rfl⟩ := List.mem_map.mp hbmem
  have hc := moveBlueStandard_inBounds s (rho c) prev c (hb c hcmem)
  obtain ⟨hx, hy, -, -, -⟩ := damageRedStandard_fields
    (prev.map fun b => moveBlueStandard s (rho b) prev b)
    (moveBlueStandard s (rho c) prev c)
  unfold inBounds
  rw [hx, hy]
  exact hc

/-- The theater tick keeps every agent inside the arena. -/
lemma updateTheater_inBounds (s : String) (p : Policy) (lg : Logistics)
    (rhoM : Agent → ℝ) (rhoH : Agent → Agent → ℝ) (th : Theater)
    (hb : ∀ a ∈ th.agents, inBounds a) :
    ∀ a ∈ (updateTheater s p lg rhoM rhoH th).agents, inBounds a := by
  intro a ha
  simp only [updateTheater] at ha
  obtain ⟨b, hbmem, rfl⟩ := List.mem_map.mp ha
  obtain ⟨c, hcmem, rfl⟩ := List.mem_map.mp hbmem
  have hc := moveBlueMulti_inBounds s p lg (rhoM c) th.agents c (hb c hcmem)
  obtain ⟨hx, hy, -, -, -⟩ := damageRedMulti_fields p lg
    (rhoH (moveBlueMulti s p lg (rhoM c) th.agents c))
    (th.agents.map fun b => moveBlueMulti s p lg (rhoM b) th.agents b)
    (moveBlueMulti s p lg (rhoM c) th.agents c)
  unfold inBounds
  rw [hx, hy]
  exact hc

/-! Claim theorems. -/

/-- C7: after any number of strategy evaluations starting from the empty
leaderboard, the COA leaderboard is sorted in descending order by score and
its length never exceeds its configured capacity (the capacity is 10 in the
periodic-switch variant and 50 in the continuous-exploration variant; the
statement covers every capacity, so both). -/
theorem c7_leaderboard_sorted_capped (cap : ℕ) (evals : List COA) :
    List.Sorted coaGE (evals.foldl (updateLeaderboard cap) []) ∧
    (evals.foldl (updateLeaderboard cap) []).length ≤ cap :=
  foldl_updateLeaderboard cap evals [] List.sorted_nil (Nat.zero_le cap)

/-- C5: across a damage pass of either variant, the health of every agent is
non-increasing, and health that starts nonnegative (any accumulated damage
floored at health 0) stays nonnegative. -/
theorem c5_health_monotone_nonneg :
    (∀ (m : List Agent) (a : Agent),
      (damageRedStandard m a).health ≤ a.health ∧
      (0 ≤ a.health → 0 ≤ (damageRedStandard m a).health)) ∧
    (∀ (p : Policy) (lg : Logistics) (roll : Agent → ℝ) (m : List Agent) (a : Agent),
      (damageRedMulti p lg roll m a).health ≤ a.health ∧
      (0 ≤ a.health → 0 ≤ (damageRedMulti p lg roll m a).health)) :=
  ⟨damageRedStandard_health_mono, damageRedMulti_health_mono⟩

/-- Witness for C5 at a concrete damage-pass input. -/
theorem c5_health_monotone_nonneg_witness :
    (damageRedStandard [mbAgent 64] (hRed 100)).health ≤ (hRed 100).health ∧
    0 ≤ (damageRedStandard [mbAgent 64] (hRed 100)).health :=
  ⟨(c5_health_monotone_nonneg.1 [mbAgent 64] (hRed 100)).1,
   (c5_health_monotone_nonneg.1 [mbAgent 64] (hRed 100)).2 (by norm_num [hRed])⟩

/-- C3: the metrics engine computes successProbability as the base
probability 50 + (forceRatio - 1) * 30, scaled by forceLevel/100 and by
(supplyRate + commsReliability)/200, then by 0.8 for defensive or 1.2 for
aggressive rules of engagement, clamped to [0, 100], with forceRatio the
active-blue count over max(1, living-red count); in particular the worked
example (full sliders, 10 active blue, 5 living red) yields 80. -/
theorem c3_success_probability :
    (∀ (mode : String) (ths : List Theater) (ags : List Agent) (p : Policy) (lg : Logistics),
      (updateMissionMetrics mode ths ags p lg).successProbability =
        min 100 (max 0
          ((BASE_SUCCESS_PROBABILITY +
              (((blueActive (if mode = "multi-theater" then (ths.map Theater.agents).flatten
                  else ags)).length : ℝ) /
                max ((redAlive (if mode = "multi-theater" then (ths.map Theater.agents).flatten
                  else ags)).length : ℝ) 1 - 1) * 30)
            * (p.forceLevel / 100) * ((lg.supplyRate + lg.commsReliability) / 200)
            * (if p.roe = "defensive" then 0.8
               else if p.roe = "aggressive" then 1.2 else 1)))) ∧
    (updateMissionMetrics "standard" [] exMetricsAgents polStandard lgFull).successProbability
      = 80 := by
  constructor
  · intro mode ths ags p lg
    simp only [updateMissionMetrics]
    by_cases hd : p.roe = "defensive"
    · have hna : ¬ p.roe = "aggressive" := by rw [hd]; decide
      simp only [if_pos hd, if_neg hna]
      congr 1
      congr 1
      ring
    · by_cases ha : p.roe = "aggressive"
      · simp only [if_pos ha, if_neg hd]
        congr 1
        congr 1
        ring
      · simp only [if_neg ha, if_neg hd]
        congr 1
        congr 1
        ring
  · exact metrics_example

/-- C6: freshly initialized agents lie inside the arena (for any random
stream with values in [0, 1)), and one tick of either mode keeps every agent
of an in-bounds state inside [0, GRID_SIZE] on both axes. -/
theorem c6_positions_in_arena :
    (∀ (rho : ℕ → ℝ), (∀ n, 0 ≤ rho n ∧ rho n < 1) →
      ∀ a ∈ initStandardMode rho, inBounds a) ∧
    (∀ (t numAgents numTargets : ℕ) (rho : ℕ → ℝ), (∀ n, 0 ≤ rho n ∧ rho n < 1) →
      ∀ a ∈ initTheaterAgents t numAgents numTargets rho, inBounds a) ∧
    (∀ (s : String) (rho : Agent → ℝ) (prev : List Agent),
      (∀ a ∈ prev, inBounds a) → ∀ a ∈ updateStandardMode s rho prev, inBounds a) ∧
    (∀ (s : String) (p : Policy) (lg : Logistics) (rhoM : Agent → ℝ)
        (rhoH : Agent → Agent → ℝ) (theaters : List Theater),
      (∀ th ∈ theaters, ∀ a ∈ th.agents, inBounds a) →
      ∀ th ∈ updateMultiTheater s p lg rhoM rhoH theaters, ∀ a ∈ th.agents, inBounds a) := by
  refine ⟨initStandardMode_inBounds, initTheaterAgents_inBounds,
    updateStandardMode_inBounds, ?_⟩
  intro s p lg rhoM rhoH theaters hb th hth
  simp only [updateMultiTheater] at hth
  obtain ⟨th0, hth0, rfl⟩ := List.mem_map.mp hth
  exact updateTheater_inBounds s p lg rhoM rhoH th0 (hb th0 hth0)

/-- Witness for C6 at a concrete tick input. -/
theorem c6_positions_in_arena_witness : inBounds (mbAgent 0) := by
  have h := c6_positions_in_arena.2.2.1 "direct" (fun _ => 0) [hBlue 0, hRed 100]
    (by
      intro a ha
      rcases List.mem_cons.mp ha with rfl | ha2
      · exact ⟨le_refl 0, by norm_num [hBlue, GRID_SIZE], le_refl 0,
          by norm_num [hBlue, GRID_SIZE]⟩
      · rcases List.mem_singleton.mp ha2 with rfl
        exact ⟨by norm_num [hRed], by norm_num [hRed, GRID_SIZE], le_refl 0,
          by norm_num [hRed, GRID_SIZE]⟩)
  apply h
  rw [updateStandardMode_hpair_miss 0 100 (fun _ => 0) (by norm_num) (by norm_num)
    (by norm_num [GRID_SIZE])
    (by rw [show |(100:ℝ) - (0 + 2.5)| = 97.5 by rw [abs_of_pos] <;> norm_num]
        norm_num [ENGAGEMENT_DISTANCE])]
  exact List.mem_cons_self _ _

/-- Multi-theater blue agent with theater index 1 and per-team sequence
number 2, used to separate the two digit fields of the id. -/
def flankAgent : Agent :=
  { aid := "t1-b2", team := "blue", x := 0, y := 0, vx := 0, vy := 0, active := true,
    health := 0 }

/-- C8 counterexample: for the multi-theater id t1-b2 the per-team sequence
number is 2 (even), so the claim picks the +60-degree offset (positive y
velocity toward a target due east), but the code parses the FIRST digit run,
the theater index 1 (odd), and picks the -60-degree offset: the produced y
velocity is negative while the claimed one is positive. -/
theorem c8_counterexample :
    agentNumOf "t1-b2" = 1 ∧
    (getStrategyBehavior flankAgent (some (hRed 100)) "flank" 0 0).2 < 0 ∧
    0 < Real.sin (atan2 ((hRed 100).y - flankAgent.y) ((hRed 100).x - flankAgent.x)
        + Real.pi / 3) * 2 := by
  have hnum : agentNumOf "t1-b2" = 1 := by decide
  have hsub : (hRed 100).y - flankAgent.y = 0 := by norm_num [hRed, flankAgent]
  have hsubx : (hRed 100).x - flankAgent.x = 100 := by norm_num [hRed, flankAgent]
  have hat : atan2 ((hRed 100).y - flankAgent.y) ((hRed 100).x - flankAgent.x) = 0 := by
    rw [hsub, hsubx]
    exact atan2_zero_of_pos 100 (by norm_num)
  have hsin3 : 0 < Real.sin (Real.pi / 3) := by
    rw [Real.sin_pi_div_three]
    positivity
  refine ⟨hnum, ?_, ?_⟩
  · rw [gsb_flank]
    dsimp only
    rw [show flankAgent.aid = "t1-b2" from rfl, hnum, hat]
    norm_num [Real.sin_neg]
  · rw [hat, zero_add]
    positivity

/-- C8 (amended): for the flank strategy with a present target the steering
angle is the bearing plus 60 degrees when the value of the FIRST digit run
of the agent id is even and minus 60 degrees when it is odd, at speed 2.
That value is the per-team sequence number for standard ids such as b3, but
it is the theater index for multi-theater ids such as t2-b3. -/
theorem c8_flank_parity :
    (∀ (a nt : Agent) (t r : ℝ),
      getStrategyBehavior a (some nt) "flank" t r =
        (Real.cos (atan2 (nt.y - a.y) (nt.x - a.x) +
            (if agentNumOf a.aid % 2 = 0 then Real.pi / 3 else -(Real.pi / 3))) * 2,
         Real.sin (atan2 (nt.y - a.y) (nt.x - a.x) +
            (if agentNumOf a.aid % 2 = 0 then Real.pi / 3 else -(Real.pi / 3))) * 2)) ∧
    agentNumOf "b3" = 3 ∧ agentNumOf "t2-b3" = 2 :=
  ⟨gsb_flank, by decide, by decide⟩

/-- C10: the tick engines call the steering behavior with the elapsed-time
argument fixed at its default 0, so for the concentrated strategy the angle
offset used during ticks is sin(agentNumber) * 0.3, a per-agent constant:
the result of the movement step carries no dependence on elapsed simulation
time, while the steering model itself oscillates with its time argument. -/
theorem c10_concentrated_constant_offset :
    (∀ (a nt : Agent) (t r : ℝ),
      getStrategyBehavior a (some nt) "concentrated" t r =
        (Real.cos (atan2 (nt.y - a.y) (nt.x - a.x) +
            Real.sin (t + (agentNumOf a.aid : ℝ)) * 0.3) * 3,
         Real.sin (atan2 (nt.y - a.y) (nt.x - a.x) +
            Real.sin (t + (agentNumOf a.aid : ℝ)) * 0.3) * 3)) ∧
    (∀ (r : ℝ) (prev : List Agent) (a nt : Agent),
      a.team = "blue" → a.active = true →
      findNearest a (redAlive prev) = some nt →
      moveBlueStandard "concentrated" r prev a =
        { a with
          vx := Real.cos (atan2 (nt.y - a.y) (nt.x - a.x) +
            Real.sin ((agentNumOf a.aid : ℝ)) * 0.3) * 3,
          vy := Real.sin (atan2 (nt.y - a.y) (nt.x - a.x) +
            Real.sin ((agentNumOf a.aid : ℝ)) * 0.3) * 3,
          x := max 0 (min GRID_SIZE (a.x + Real.cos (atan2 (nt.y - a.y) (nt.x - a.x) +
            Real.sin ((agentNumOf a.aid : ℝ)) * 0.3) * 3)),
          y := max 0 (min GRID_SIZE (a.y + Real.sin (atan2 (nt.y - a.y) (nt.x - a.x) +
            Real.sin ((agentNumOf a.aid : ℝ)) * 0.3) * 3)) }) ∧
    (∀ (p : Policy) (lg : Logistics) (r : ℝ) (prev : List Agent) (a nt : Agent),
      a.team = "blue" → a.active = true →
      findNearest a (redAlive prev) = some nt →
      (moveBlueMulti "concentrated" p lg r prev a).vx =
        Real.cos (atan2 (nt.y - a.y) (nt.x - a.x) +
          Real.sin ((agentNumOf a.aid : ℝ)) * 0.3) * 3 * roeAggressionMod p.roe) := by
  refine ⟨gsb_concentrated, ?_, ?_⟩
  · intro r prev a nt h1 h2 h3
    rw [moveBlueStandard_eval _ _ _ _ _ h1 h2 h3, gsb_concentrated]
    simp only [zero_add]
  · intro p lg r prev a nt h1 h2 h3
    rw [moveBlueMulti_eval _ _ _ _ _ _ _ h1 h2 h3, gsb_concentrated]
    simp only [zero_add]

/-- Witness for C10 at a concrete movement-step input. -/
theorem c10_concentrated_constant_offset_witness :
    moveBlueStandard "concentrated" 0 [hBlue 0, hRed 100] (hBlue 0) =
      { hBlue 0 with
        vx := Real.cos (atan2 ((hRed 100).y - (hBlue 0).y) ((hRed 100).x - (hBlue 0).x) +
          Real.sin ((agentNumOf (hBlue 0).aid : ℝ)) * 0.3) * 3,
        vy := Real.sin (atan2 ((hRed 100).y - (hBlue 0).y) ((hRed 100).x - (hBlue 0).x) +
          Real.sin ((agentNumOf (hBlue 0).aid : ℝ)) * 0.3) * 3,
        x := max 0 (min GRID_SIZE ((hBlue 0).x +
          Real.cos (atan2 ((hRed 100).y - (hBlue 0).y) ((hRed 100).x - (hBlue 0).x) +
            Real.sin ((agentNumOf (hBlue 0).aid : ℝ)) * 0.3) * 3)),
        y := max 0 (min GRID_SIZE ((hBlue 0).y +
          Real.sin (atan2 ((hRed 100).y - (hBlue 0).y) ((hRed 100).x - (hBlue 0).x) +
            Real.sin ((agentNumOf (hBlue 0).aid : ℝ)) * 0.3) * 3)) } :=
  c10_concentrated_constant_offset.2.1 0 [hBlue 0, hRed 100] (hBlue 0) (hRed 100) rfl rfl
    (by rw [redAlive_pair _ _ rfl rfl (by norm_num [hRed])]; exact findNearest_single _ _)

/-- C1 counterexample: in standard mode the displacement is the raw steering
velocity; with aggressive rules of engagement and full transport capacity
the claimed displacement 2.5 * 1.5 * (100/100) = 3.75 differs from the 2.5
the engine produces (blue at (0,0), red at (100,0), strategy direct). -/
theorem c1_counterexample :
    getStrategyBehavior (hBlue 0) (some (hRed 100)) "direct" 0 0 = (2.5, 0) ∧
    (updateStandardMode "direct" (fun _ => 0) [hBlue 0, hRed 100]).map Agent.x
      = [2.5, 100] ∧
    (2.5 : ℝ) ≠ (hBlue 0).x + 2.5 * roeAggressionMod polAggressive.roe *
      (lgFull.transportCapacity / 100) := by
  refine ⟨?_, ?_, ?_⟩
  · exact gsb_direct_horizontal (hBlue 0) (hRed 100) 0 0 (by norm_num [hBlue, hRed])
      (by norm_num [hBlue, hRed])
  · rw [updateStandardMode_hpair_miss 0 100 (fun _ => 0) (by norm_num) (by norm_num)
      (by norm_num [GRID_SIZE])
      (by rw [show |(100:ℝ) - (0 + 2.5)| = 97.5 by rw [abs_of_pos] <;> norm_num]
          norm_num [ENGAGEMENT_DISTANCE])]
    norm_num [mbAgent, hRed]
  · have : roeAggressionMod polAggressive.roe = 1.5 := by
      simp [roeAggressionMod, polAggressive]
    rw [this]
    norm_num [hBlue, lgFull]

/-- C1 (amended): in multi-theater mode the displacement of a moving blue agent
before clamping is the steering velocity times the ROE aggression modifier
(0.5 defensive, 1.5 aggressive, 1 standard) times transportCapacity/100; in
STANDARD mode the displacement is the raw steering velocity with neither
modifier applied.  With both modifiers equal to 1 the worked example (blue
at (0,0), red at (100,0), direct) moves the blue agent to (2.5, 0) in both
modes. -/
theorem c1_displacement :
    (∀ (s : String) (p : Policy) (lg : Logistics) (rhoM : Agent → ℝ)
        (rhoH : Agent → Agent → ℝ) (th : Theater) (i : ℕ)
        (hi : i < th.agents.length)
        (hj : i < (updateTheater s p lg rhoM rhoH th).agents.length) (nt : Agent),
      (th.agents.get ⟨i, hi⟩).team = "blue" →
      (th.agents.get ⟨i, hi⟩).active = true →
      findNearest (th.agents.get ⟨i, hi⟩) (redAlive th.agents) = some nt →
      ((updateTheater s p lg rhoM rhoH th).agents.get ⟨i, hj⟩).x
          = max 0 (min GRID_SIZE ((th.agents.get ⟨i, hi⟩).x +
              (getStrategyBehavior (th.agents.get ⟨i, hi⟩) (some nt) s 0
                (rhoM (th.agents.get ⟨i, hi⟩))).1
                * roeAggressionMod p.roe * (lg.transportCapacity / 100))) ∧
      ((updateTheater s p lg rhoM rhoH th).agents.get ⟨i, hj⟩).y
          = max 0 (min GRID_SIZE ((th.agents.get ⟨i, hi⟩).y +
              (getStrategyBehavior (th.agents.get ⟨i, hi⟩) (some nt) s 0
                (rhoM (th.agents.get ⟨i, hi⟩))).2
                * roeAggressionMod p.roe * (lg.transportCapacity / 100)))) ∧
    (∀ (s : String) (rho : Agent → ℝ) (prev : List Agent) (i : ℕ)
        (hi : i < prev.length) (hj : i < (updateStandardMode s rho prev).length)
        (nt : Agent),
      (prev.get ⟨i, hi⟩).team = "blue" →
      (prev.get ⟨i, hi⟩).active = true →
      findNearest (prev.get ⟨i, hi⟩) (redAlive prev) = some nt →
      ((updateStandardMode s rho prev).get ⟨i, hj⟩).x
          = max 0 (min GRID_SIZE ((prev.get ⟨i, hi⟩).x +
              (getStrategyBehavior (prev.get ⟨i, hi⟩) (some nt) s 0
                (rho (prev.get ⟨i, hi⟩))).1)) ∧
      ((updateStandardMode s rho prev).get ⟨i, hj⟩).y
          = max 0 (min GRID_SIZE ((prev.get ⟨i, hi⟩).y +
              (getStrategyBehavior (prev.get ⟨i, hi⟩) (some nt) s 0
                (rho (prev.get ⟨i, hi⟩))).2))) ∧
    ((updateStandardMode "direct" (fun _ => 0) [hBlue 0, hRed 100]).map Agent.x
        = [2.5, 100] ∧
     ((updateTheater "direct" polStandard lgFull (fun _ => 0) (fun _ _ => 0)
        { tid := 0, name := "Northern Front", agents := [hBlue 0, hRed 100],
          priority := 0 }).agents.map Agent.x = [2.5, 100])) := by
  have hdist97 : ¬ |(100:ℝ) - (0 + 2.5)| < ENGAGEMENT_DISTANCE := by
    rw [show |(100:ℝ) - (0 + 2.5)| = 97.5 by rw [abs_of_pos] <;> norm_num]
    norm_num [ENGAGEMENT_DISTANCE]
  refine ⟨?_, ?_, ?_, ?_⟩
  · intro s p lg rhoM rhoH th i hi hj nt h1 h2 h3
    have key : (updateTheater s p lg rhoM rhoH th).agents.get ⟨i, hj⟩ =
        damageRedMulti p lg
          (rhoH (moveBlueMulti s p lg (rhoM (th.agents.get ⟨i, hi⟩)) th.agents
            (th.agents.get ⟨i, hi⟩)))
          (th.agents.map fun b => moveBlueMulti s p lg (rhoM b) th.agents b)
          (moveBlueMulti s p lg (rhoM (th.agents.get ⟨i, hi⟩)) th.agents
            (th.agents.get ⟨i, hi⟩)) := by
      simp only [updateTheater, List.get_eq_getElem, List.getElem_map]
    rw [key]
    obtain ⟨hdx, hdy, -, -, -⟩ := damageRedMulti_fields p lg
      (rhoH (moveBlueMulti s p lg (rhoM (th.agents.get ⟨i, hi⟩)) th.agents
        (th.agents.get ⟨i, hi⟩)))
      (th.agents.map fun b => moveBlueMulti s p lg (rhoM b) th.agents b)
      (moveBlueMulti s p lg (rhoM (th.agents.get ⟨i, hi⟩)) th.agents
        (th.agents.get ⟨i, hi⟩))
    rw [hdx, hdy, moveBlueMulti_eval _ _ _ _ _ _ _ h1 h2 h3]
    exact ⟨rfl, rfl⟩
  · intro s rho prev i hi hj nt h1 h2 h3
    have key : (updateStandardMode s rho prev).get ⟨i, hj⟩ =
        damageRedStandard (prev.map fun b => moveBlueStandard s (rho b) prev b)
          (moveBlueStandard s (rho (prev.get ⟨i, hi⟩)) prev (prev.get ⟨i, hi⟩)) := by
      simp only [updateStandardMode, List.get_eq_getElem, List.getElem_map]
    rw [key]
    obtain ⟨hdx, hdy, -, -, -⟩ := damageRedStandard_fields
      (prev.map fun b => moveBlueStandard s (rho b) prev b)
      (moveBlueStandard s (rho (prev.get ⟨i, hi⟩)) prev (prev.get ⟨i, hi⟩))
    rw [hdx, hdy, moveBlueStandard_eval _ _ _ _ _ h1 h2 h3]
    exact ⟨rfl, rfl⟩
  · rw [updateStandardMode_hpair_miss 0 100 (fun _ => 0) (by norm_num) (by norm_num)
      (by norm_num [GRID_SIZE]) hdist97]
    norm_num [mbAgent, hRed]
  · rw [updateTheater_hpair_miss 0 100 0 "Northern Front" (fun _ => 0) (fun _ _ => 0)
      (by norm_num) (by norm_num) (by norm_num [GRID_SIZE]) hdist97]
    norm_num [mbAgent, hRed]

/-- Witness for C1 at a concrete multi-theater tick input. -/
theorem c1_displacement_witness :
    ((updateTheater "direct" polStandard lgFull (fun _ => 0) (fun _ _ => 0)
        { tid := 0, name := "Northern Front", agents := [hBlue 0, hRed 100],
          priority := 0 }).agents.get
      ⟨0, by rw [length_updateTheater]; norm_num⟩).x
      = max 0 (min GRID_SIZE ((hBlue 0).x +
          (getStrategyBehavior (hBlue 0) (some (hRed 100)) "direct" 0 0).1
            * roeAggressionMod polStandard.roe * (lgFull.transportCapacity / 100))) :=
  (c1_displacement.1 "direct" polStandard lgFull (fun _ => 0) (fun _ _ => 0)
    { tid := 0, name := "Northern Front", agents := [hBlue 0, hRed 100], priority := 0 }
    0 (by norm_num) (by rw [length_updateTheater]; norm_num) (hRed 100) rfl rfl
    (by rw [redAlive_pair _ _ rfl rfl (by norm_num [hRed])]
        exact findNearest_single _ _)).1

/-- C2 counterexample: on the same configuration (blue in engagement range
of the red) the standard-mode pass deals the flat HIT_DAMAGE (health 98)
with no hit-probability roll, while the multi-theater pass with
commsReliability 0 deals none (health 100): the engine mixes the
deterministic and the stochastic damage variants across modes, and the
standard pass damages even when the claimed hit probability is 0. -/
theorem c2_counterexample :
    (updateStandardMode "direct" (fun _ => 0) [hBlue 100, hRed 110]).map Agent.health
      = [0, 98] ∧
    ((updateTheater "direct" polStandard lgComms0 (fun _ => 0) (fun _ _ => 0)
        { tid := 0, name := "Northern Front", agents := [hBlue 100, hRed 110],
          priority := 0 }).agents.map Agent.health = [0, 100]) ∧
    lgComms0.commsReliability / 100 = 0 ∧ (98 : ℝ) ≠ 100 := by
  refine ⟨?_, ?_, by norm_num [lgComms0], by norm_num⟩
  · rw [updateStandardMode_hpair_hit 100 110 (fun _ => 0) (by norm_num) (by norm_num)
      (by norm_num [GRID_SIZE])
      (by rw [show |(110:ℝ) - (100 + 2.5)| = 7.5 by rw [abs_of_pos] <;> norm_num]
          norm_num [ENGAGEMENT_DISTANCE])]
    norm_num [mbAgent]
  · rw [updateTheater_hpair_comms0 100 110 0 "Northern Front" (fun _ => 0)
      (by norm_num) (by norm_num) (by norm_num [GRID_SIZE])]
    norm_num [mbAgent, hRed]

/-- C2 (amended): the multi-theater damage pass is the stochastic variant —
the health of a living red agent drops to max 0 of health minus the sum, over
active blue agents of the scanned roster within ENGAGEMENT_DISTANCE, of
HIT_DAMAGE scaled by the ROE damage modifier, each contributing exactly when
its roll is below commsReliability/100 — while the standard-mode damage
pass is the deterministic flat variant: HIT_DAMAGE per in-range active blue
agent, with no roll and no ROE scaling.  The two variants coexist, one per
mode. -/
theorem c2_damage_variants :
    (∀ (p : Policy) (lg : Logistics) (roll : Agent → ℝ) (m : List Agent) (a : Agent),
      a.team = "red" → a.health > 0 →
      (damageRedMulti p lg roll m a).health =
        max 0 (a.health - ((blueActive m).map (fun b =>
          if distAg a b < ENGAGEMENT_DISTANCE ∧ roll b < lg.commsReliability / 100 then
            roeHitDamage p.roe else 0)).sum)) ∧
    (∀ (m : List Agent) (a : Agent),
      a.team = "red" → a.health > 0 →
      (damageRedStandard m a).health =
        max 0 (a.health - HIT_DAMAGE *
          (((blueActive m).filter
            (fun b => decide (distAg a b < ENGAGEMENT_DISTANCE))).length : ℝ))) :=
  ⟨damageRedMulti_health, damageRedStandard_health⟩

/-- Witness for C2 at a concrete damage-pass input. -/
theorem c2_damage_variants_witness :
    (damageRedStandard [mbAgent 64] (hRed 100)).health =
      max 0 ((hRed 100).health - HIT_DAMAGE *
        ((([mbAgent 64] : List Agent).filter
          (fun b => decide (distAg (hRed 100) b < ENGAGEMENT_DISTANCE))).length : ℝ)) := by
  have h := c2_damage_variants.2 [mbAgent 64] (hRed 100) rfl (by norm_num [hRed])
  rw [h]
  rw [show blueActive [mbAgent 64] = [mbAgent 64] by
    simp [blueActive, List.filter, mbAgent]]

/-- C4 counterexample: with the blue agent starting at (64, 0) and the red
at (100, 0) the pre-tick distance is 36, outside the engagement range, yet
after one standard tick the health of the red agent is 98: the damage pass reads
the post-movement blue position (66.5, distance 33.5), not the pre-pass
snapshot the claim asserts. -/
theorem c4_counterexample :
    ¬ distAg (hRed 100) (hBlue 64) < ENGAGEMENT_DISTANCE ∧
    (updateStandardMode "direct" (fun _ => 0) [hBlue 64, hRed 100]).map Agent.health
      = [0, 98] := by
  constructor
  · rw [distAg_sameY (hRed 100) (hBlue 64) (by norm_num [hRed, hBlue])]
    rw [show |(hBlue 64).x - (hRed 100).x| = 36 by
      rw [show (hBlue 64).x - (hRed 100).x = -36 by norm_num [hBlue, hRed]]
      rw [abs_neg]
      rw [abs_of_pos]
      norm_num
      ]
    norm_num [ENGAGEMENT_DISTANCE]
  · rw [updateStandardMode_hpair_hit 64 100 (fun _ => 0) (by norm_num) (by norm_num)
      (by norm_num [GRID_SIZE])
      (by rw [show |(100:ℝ) - (64 + 2.5)| = 33.5 by rw [abs_of_pos] <;> norm_num]
          norm_num [ENGAGEMENT_DISTANCE])]
    norm_num [mbAgent]

/-- C4 (amended): each pass reads a snapshot fixed before the pass begins
and writes its results as a batch, so processing the agents of either pass
in ANY index order that covers the roster reproduces the tick of the engine
exactly (order independence within the step); the snapshot of the movement pass
is the start-of-tick roster, but the snapshot of the damage pass is the
POST-MOVEMENT roster, not the start-of-tick positions. -/
theorem c4_snapshot_discipline :
    (∀ (s : String) (rho : Agent → ℝ) (prev : List Agent) (ord1 ord2 : List ℕ),
      (∀ i, i < prev.length → i ∈ ord1) →
      (∀ i, i < prev.length → i ∈ ord2) →
      passInOrder
          (fun a => damageRedStandard
            (passInOrder (fun b => moveBlueStandard s (rho b) prev b) prev ord1) a)
          (passInOrder (fun b => moveBlueStandard s (rho b) prev b) prev ord1) ord2
        = updateStandardMode s rho prev) ∧
    (∀ (s : String) (p : Policy) (lg : Logistics) (rhoM : Agent → ℝ)
        (rhoH : Agent → Agent → ℝ) (th : Theater) (ord1 ord2 : List ℕ),
      (∀ i, i < th.agents.length → i ∈ ord1) →
      (∀ i, i < th.agents.length → i ∈ ord2) →
      passInOrder
          (fun a => damageRedMulti p lg (rhoH a)
            (passInOrder (fun b => moveBlueMulti s p lg (rhoM b) th.agents b)
              th.agents ord1) a)
          (passInOrder (fun b => moveBlueMulti s p lg (rhoM b) th.agents b)
            th.agents ord1) ord2
        = (updateTheater s p lg rhoM rhoH th).agents) := by
  constructor
  · intro s rho prev ord1 ord2 hc1 hc2
    rw [passInOrder_eq_map _ _ _ hc1]
    rw [passInOrder_eq_map _ _ _ (by
      intro i hlen
      exact hc2 i (by simpa using hlen))]
    rfl
  · intro s p lg rhoM rhoH th ord1 ord2 hc1 hc2
    rw [passInOrder_eq_map _ _ _ hc1]
    rw [passInOrder_eq_map _ _ _ (by
      intro i hlen
      exact hc2 i (by simpa using hlen))]
    rfl

/-- Witness for C4: both passes of a standard tick processed in reversed
index order reproduce the tick. -/
theorem c4_snapshot_discipline_witness :
    passInOrder
        (fun a => damageRedStandard
          (passInOrder (fun b => moveBlueStandard "direct" 0 [hBlue 0, hRed 100] b)
            [hBlue 0, hRed 100] [1, 0]) a)
        (passInOrder (fun b => moveBlueStandard "direct" 0 [hBlue 0, hRed 100] b)
          [hBlue 0, hRed 100] [1, 0]) [1, 0]
      = updateStandardMode "direct" (fun _ => 0) [hBlue 0, hRed 100] :=
  c4_snapshot_discipline.1 "direct" (fun _ => 0) [hBlue 0, hRed 100] [1, 0] [1, 0]
    (by decide) (by decide)

/-- C9 counterexample: with supplyRate = commsReliability = 0 the logistics
factor is 0 and the timeToObjective of the engine is the JS Infinity the unguarded
division produces — not a finite non-negative integer sentinel. -/
theorem c9_counterexample :
    (updateMissionMetrics "standard" [] [] polStandard lgLogZero).timeToObjective
        = JsVal.inf ∧
    ((updateMissionMetrics "standard" [] [] polStandard lgLogZero).timeToObjective).isNum
        = false := by
  refine ⟨metrics_logzero, ?_⟩
  rw [metrics_logzero]
  rfl

/-- C9 (amended): the engine computes timeToObjective with no division
guard: when the logistics factor (supplyRate + commsReliability)/200 is 0
the JS division yields Infinity, which Math.floor preserves, so the stored
value is the non-finite Infinity sentinel (no error is raised, but the
value is not a finite integer); for a nonzero factor the value is
floor(100 / (2 * factor)), and for a positive factor that is a non-negative
integer. -/
theorem c9_time_to_objective :
    (∀ (mode : String) (ths : List Theater) (ags : List Agent) (p : Policy)
        (lg : Logistics),
      (lg.supplyRate + lg.commsReliability) / 200 = 0 →
      (updateMissionMetrics mode ths ags p lg).timeToObjective = JsVal.inf) ∧
    (∀ (mode : String) (ths : List Theater) (ags : List Agent) (p : Policy)
        (lg : Logistics),
      (lg.supplyRate + lg.commsReliability) / 200 ≠ 0 →
      (updateMissionMetrics mode ths ags p lg).timeToObjective =
        JsVal.num (⌊100 / ((lg.supplyRate + lg.commsReliability) / 200 * 2)⌋ : ℤ)) ∧
    (∀ (mode : String) (ths : List Theater) (ags : List Agent) (p : Policy)
        (lg : Logistics),
      0 < (lg.supplyRate + lg.commsReliability) / 200 →
      ∃ n : ℤ, 0 ≤ n ∧
        (updateMissionMetrics mode ths ags p lg).timeToObjective = JsVal.num (n : ℝ)) := by
  refine ⟨metrics_time_inf, metrics_time_num, ?_⟩
  intro mode ths ags p lg h
  refine ⟨⌊100 / ((lg.supplyRate + lg.commsReliability) / 200 * 2)⌋, ?_,
    metrics_time_num mode ths ags p lg (ne_of_gt h)⟩
  exact Int.floor_nonneg.mpr (div_nonneg (by norm_num) (by linarith))

/-- Witness for C9 at concrete logistics inputs. -/
theorem c9_time_to_objective_witness :
    ∃ n : ℤ, 0 ≤ n ∧
      (updateMissionMetrics "standard" [] [] polStandard lgFull).timeToObjective
        = JsVal.num (n : ℝ) :=
  c9_time_to_objective.2.2 "standard" [] [] polStandard lgFull (by norm_num [lgFull])

end Scepter
